import Mathlib

/-!
Shallow embedding of `src/messaging.go` (AppliedGo/messaging): a PAIR
messaging demo over the mangos socket library.  The external library is
modelled as an environment (`SocketEnv`) that determines the result of each
socket operation (socket creation, listen, dial, the k-th send, the k-th
receive).  Each operation of the program is embedded as a function that
returns the list of observable events it performs together with its result;
`log.Fatalf` (which exits the process immediately, skipping deferred
functions) is modelled as an outcome `some fatalMessage`, after which no
further events occur.
-/

namespace Messaging

/-- Transport mechanisms registered on the socket (ipc and tcp in the code). -/
inductive Transport where
  | ipc
  | tcp
deriving DecidableEq, Repr

/-- Observable events of a process run: socket-library calls, log output,
and sleeps.  `logFatal` records the diagnostic printed by `log.Fatalf`,
which terminates the process immediately. -/
inductive Event where
  | newPairSocket
  | addTransport (t : Transport)
  | setRecvDeadline (seconds : Nat)
  | listen (url : String)
  | dial (url : String)
  | sockSend (payload : String)
  | sockRecv
  | sockClose
  | sleep (seconds : Nat)
  | logPrint (msg : String)
  | logFatal (msg : String)
deriving DecidableEq, Repr

/-- Environment modelling the external mangos library: the error (if any)
returned by `pair.NewSocket()`, by `socket.Listen(url)`, by
`socket.Dial(url)`, by the k-th call to `socket.Send` and the result of the
k-th call to `socket.Recv` (error, or the received payload). -/
structure SocketEnv where
  newSocketErr : Option String
  listenErr : Option String
  dialErr : Option String
  sendErr : Nat → Option String
  recvResult : Nat → Except String String

/-- Embedding of `newSocket()`: create a PAIR socket (fatal on error, with a
diagnostic naming the node), add the ipc and tcp transports, and set a
receive deadline of 10 seconds. -/
def newSocket (env : SocketEnv) (node : String) : List Event × Option String :=
  match env.newSocketErr with
  | some e =>
      ([Event.newPairSocket,
        Event.logFatal ("Node " ++ node ++ ": Cannot create socket: " ++ e ++ "\n")],
       some ("Node " ++ node ++ ": Cannot create socket: " ++ e ++ "\n"))
  | none =>
      ([Event.newPairSocket,
        Event.addTransport Transport.ipc,
        Event.addTransport Transport.tcp,
        Event.setRecvDeadline 10],
       none)

/-- Embedding of `send(socket, message)` for the k-th send: log the payload,
call `socket.Send`; a send error is fatal, with a diagnostic containing the
node and the failed payload. -/
def send (env : SocketEnv) (node message : String) (k : Nat) :
    List Event × Option String :=
  match env.sendErr k with
  | none =>
      ([Event.logPrint ("Node " ++ node ++ " sends " ++ message ++ "\n"),
        Event.sockSend message],
       none)
  | some e =>
      ([Event.logPrint ("Node " ++ node ++ " sends " ++ message ++ "\n"),
        Event.sockSend message,
        Event.logFatal ("Node " ++ node ++ " failed to send \x27" ++ message ++ "\x27: "
          ++ e ++ "\n")],
       some ("Node " ++ node ++ " failed to send \x27" ++ message ++ "\x27: "
          ++ e ++ "\n"))

/-- Embedding of `receive(socket)` for the k-th receive: call `socket.Recv`;
a receive error (including the 10-second deadline expiring) is fatal, with a
diagnostic naming the node; on success the received payload is logged and
returned. -/
def receive (env : SocketEnv) (node : String) (k : Nat) :
    List Event × Except String String :=
  match env.recvResult k with
  | Except.error e =>
      ([Event.sockRecv,
        Event.logFatal ("Node " ++ node ++ " failed receiving a message: " ++ e ++ "\n")],
       Except.error ("Node " ++ node ++ " failed receiving a message: " ++ e ++ "\n"))
  | Except.ok bytes =>
      ([Event.sockRecv,
        Event.logPrint ("Node " ++ node ++ " received " ++ bytes ++ "\n")],
       Except.ok bytes)

/-- The payload formatted at loop iteration `i`:
`fmt.Sprintf("message %d from node %s.", i, node)`. -/
def mkMsg (i : Nat) (node : String) : String :=
  "message " ++ toString i ++ " from node " ++ node ++ "."

/-- The exchange loop of `runNode`, starting at iteration index `i` with
`r` iterations remaining (the code runs it with `i = 0`, `r = 3`): each
iteration sends the formatted message, receives (discarding the payload),
and sleeps one second.  A fatal send or receive stops the loop with the
fatal outcome. -/
def exchangeFrom (env : SocketEnv) (node : String) : Nat → Nat → List Event × Option String
  | _, 0 => ([], none)
  | i, r + 1 =>
      let s := send env node (mkMsg i node) i
      match s.2 with
      | some f => (s.1, some f)
      | none =>
          let rc := receive env node i
          match rc.2 with
          | Except.error f => (s.1 ++ rc.1, some f)
          | Except.ok _ =>
              let rest := exchangeFrom env node (i + 1) r
              (s.1 ++ rc.1 ++ [Event.sleep 1] ++ rest.1, rest.2)

/-- Embedding of `runNode(url)`: create the socket, try `Listen(url)`, on
failure log and try `Dial(url)` (fatal if that also fails), then run the
3-iteration exchange loop and log completion.  `defer socket.Close()` is
registered after the listen/dial phase and runs only when `runNode` returns
normally: `log.Fatalf` exits the process without running deferred calls, so
no `sockClose` event occurs on any fatal path. -/
def runNode (env : SocketEnv) (node url : String) : List Event × Option String :=
  let ns := newSocket env node
  match ns.2 with
  | some f => (ns.1, some f)
  | none =>
      let conn : List Event × Option String :=
        match env.listenErr with
        | none => ([Event.listen url], none)
        | some e1 =>
            let lg := Event.logPrint ("Node " ++ node ++ " cannot listen on socket \x27"
              ++ url ++ "\x27: " ++ e1 ++ "\nTrying to dial instead\n")
            match env.dialErr with
            | none => ([Event.listen url, lg, Event.dial url], none)
            | some e2 =>
                ([Event.listen url, lg, Event.dial url,
                  Event.logFatal ("Node " ++ node ++ " can neither listen nor dial on socket \x27"
                    ++ url ++ "\x27: " ++ e2 ++ "\n")],
                 some ("Node " ++ node ++ " can neither listen nor dial on socket \x27"
                    ++ url ++ "\x27: " ++ e2 ++ "\n"))
      match conn.2 with
      | some f => (ns.1 ++ conn.1, some f)
      | none =>
          let loop := exchangeFrom env node 0 3
          match loop.2 with
          | some f => (ns.1 ++ conn.1 ++ loop.1, some f)
          | none =>
              (ns.1 ++ conn.1 ++ loop.1
                ++ [Event.logPrint ("Node " ++ node ++ ": Done.\n"), Event.sockClose],
               none)

/-- Embedding of `main()`: with at most two elements in `os.Args` (program
name plus fewer than two positional arguments) print a usage line and do
nothing else; otherwise store `os.Args[1]` as the node and run
`runNode(os.Args[2])`. -/
def mainGo (env : SocketEnv) (args : List String) : List Event × Option String :=
  if args.length ≤ 2 then
    ([Event.logPrint ("Usage: " ++ args.headD "" ++ " 0|1 <url>\n")], none)
  else
    runNode env (args.getD 1 "") (args.getD 2 "")

/-- Loop-body events: the only kinds of events the exchange loop can emit. -/
def loopEvent : Event → Bool
  | Event.sockSend _ => true
  | Event.sockRecv => true
  | Event.sleep _ => true
  | Event.logPrint _ => true
  | Event.logFatal _ => true
  | _ => false

/-- Socket send/receive events. -/
def sendRecvP : Event → Bool
  | Event.sockSend _ => true
  | Event.sockRecv => true
  | _ => false

/-- Socket send/receive events and sleeps. -/
def sendRecvSleepP : Event → Bool
  | Event.sockSend _ => true
  | Event.sockRecv => true
  | Event.sleep _ => true
  | _ => false

/-- Connection-establishment events (listen and dial attempts). -/
def connP : Event → Bool
  | Event.listen _ => true
  | Event.dial _ => true
  | _ => false

/-- The payload of a send event, if the event is one. -/
def sentPayload : Event → Option String
  | Event.sockSend p => some p
  | _ => none

/-- The ideal send/receive alternation for `r` iterations starting at
iteration `i`: send the iteration message, then receive, repeatedly. -/
def altFrom (node : String) : Nat → Nat → List Event
  | _, 0 => []
  | i, r + 1 =>
      Event.sockSend (mkMsg i node) :: Event.sockRecv :: altFrom node (i + 1) r

/-- The ideal send/receive/sleep pattern for `r` iterations starting at
iteration `i`: send, receive, sleep one second, repeatedly. -/
def altSleepFrom (node : String) : Nat → Nat → List Event
  | _, 0 => []
  | i, r + 1 =>
      Event.sockSend (mkMsg i node) :: Event.sockRecv :: Event.sleep 1
        :: altSleepFrom node (i + 1) r

/-- An environment in which every socket operation succeeds and the peer
answers the k-th receive with its own k-th message. -/
def envOk : SocketEnv where
  newSocketErr := none
  listenErr := none
  dialErr := none
  sendErr := fun _ => none
  recvResult := fun k => Except.ok (mkMsg k "1")

/-- An environment in which the listen attempt fails (peer already bound)
but the dial succeeds, and the exchange then runs cleanly. -/
def envDialOk : SocketEnv where
  newSocketErr := none
  listenErr := some "bind: address already in use"
  dialErr := none
  sendErr := fun _ => none
  recvResult := fun k => Except.ok (mkMsg k "0")

/-- An environment in which every receive times out. -/
def envRecvFail : SocketEnv where
  newSocketErr := none
  listenErr := none
  dialErr := none
  sendErr := fun _ => none
  recvResult := fun _ => Except.error "recv deadline exceeded"

/-- An environment in which every send fails. -/
def envSendFail : SocketEnv where
  newSocketErr := none
  listenErr := none
  dialErr := none
  sendErr := fun _ => some "connection reset"
  recvResult := fun _ => Except.error "recv deadline exceeded"

/-- An environment in which both listen and dial fail. -/
def envConnFail : SocketEnv where
  newSocketErr := none
  listenErr := some "bind: address already in use"
  dialErr := some "connection refused"
  sendErr := fun _ => none
  recvResult := fun k => Except.ok (mkMsg k "1")

/-- An environment in which socket creation itself fails. -/
def envNewFail : SocketEnv where
  newSocketErr := some "out of file descriptors"
  listenErr := none
  dialErr := none
  sendErr := fun _ => none
  recvResult := fun k => Except.ok (mkMsg k "1")

/-- A variant of `envOk` whose peer answers with different payload contents
(used to compare two runs that differ only in what is received). -/
def envOkAlt : SocketEnv where
  newSocketErr := none
  listenErr := none
  dialErr := none
  sendErr := fun _ => none
  recvResult := fun k => Except.ok ("totally different reply " ++ toString k)

/-! Helper lemmas about the exchange loop. -/

theorem exchangeFrom_all_loopEvent (env : SocketEnv) (node : String) :
    ∀ r i, ((exchangeFrom env node i r).1.all loopEvent) = true := by
  intro r
  induction r with
  | zero => intro i; rfl
  | succ r ih =>
      intro i
      cases hs : env.sendErr i with
      | some es => simp [exchangeFrom, send, hs, loopEvent]
      | none =>
          cases hr : env.recvResult i with
          | error er => simp [exchangeFrom, send, receive, hs, hr, loopEvent]
          | ok s =>
              simp [exchangeFrom, send, receive, hs, hr, loopEvent, List.all_append]
              exact List.all_eq_true.mp (ih (i + 1))

theorem exchangeFrom_no_close (env : SocketEnv) (node : String) (r i : Nat) :
    Event.sockClose ∉ (exchangeFrom env node i r).1 := by
  intro hmem
  have h := List.all_eq_true.mp (exchangeFrom_all_loopEvent env node r i) _ hmem
  simp [loopEvent] at h

theorem exchangeFrom_filter_connP (env : SocketEnv) (node : String) (r i : Nat) :
    (exchangeFrom env node i r).1.filter connP = [] := by
  rw [List.filter_eq_nil_iff]
  intro e hmem
  have h := List.all_eq_true.mp (exchangeFrom_all_loopEvent env node r i) _ hmem
  cases e <;> simp_all [loopEvent, connP]

theorem exchangeFrom_alt_pre (env : SocketEnv) (node : String) :
    ∀ r i, ∃ t, (exchangeFrom env node i r).1.filter sendRecvP ++ t = altFrom node i r := by
  intro r
  induction r with
  | zero => intro i; exact ⟨[], rfl⟩
  | succ r ih =>
      intro i
      cases hs : env.sendErr i with
      | some es =>
          refine ⟨Event.sockRecv :: altFrom node (i + 1) r, ?_⟩
          simp [exchangeFrom, send, hs, altFrom, sendRecvP]
      | none =>
          cases hr : env.recvResult i with
          | error er =>
              refine ⟨altFrom node (i + 1) r, ?_⟩
              simp [exchangeFrom, send, receive, hs, hr, altFrom, sendRecvP]
          | ok s =>
              obtain ⟨t, ht⟩ := ih (i + 1)
              refine ⟨t, ?_⟩
              simp [exchangeFrom, send, receive, hs, hr, altFrom, sendRecvP,
                List.filter_append, ht]

theorem exchangeFrom_success_filter (env : SocketEnv) (node : String) :
    ∀ r i, (exchangeFrom env node i r).2 = none →
      (exchangeFrom env node i r).1.filter sendRecvP = altFrom node i r := by
  intro r
  induction r with
  | zero => intro i _; rfl
  | succ r ih =>
      intro i h
      cases hs : env.sendErr i with
      | some es => simp [exchangeFrom, send, hs] at h
      | none =>
          cases hr : env.recvResult i with
          | error er => simp [exchangeFrom, send, receive, hs, hr] at h
          | ok s =>
              simp [exchangeFrom, send, receive, hs, hr] at h ⊢
              simp [List.filter_append, sendRecvP, altFrom, ih (i + 1) h]

theorem exchangeFrom_success_filter_sleep (env : SocketEnv) (node : String) :
    ∀ r i, (exchangeFrom env node i r).2 = none →
      (exchangeFrom env node i r).1.filter sendRecvSleepP = altSleepFrom node i r := by
  intro r
  induction r with
  | zero => intro i _; rfl
  | succ r ih =>
      intro i h
      cases hs : env.sendErr i with
      | some es => simp [exchangeFrom, send, hs] at h
      | none =>
          cases hr : env.recvResult i with
          | error er => simp [exchangeFrom, send, receive, hs, hr] at h
          | ok s =>
              simp [exchangeFrom, send, receive, hs, hr] at h ⊢
              simp [List.filter_append, sendRecvSleepP, altSleepFrom, ih (i + 1) h]

theorem exchangeFrom_fatal_end (env : SocketEnv) (node : String) :
    ∀ r i m, (exchangeFrom env node i r).2 = some m →
      ∃ t, (exchangeFrom env node i r).1 = t ++ [Event.logFatal m] := by
  intro r
  induction r with
  | zero => intro i m h; simp [exchangeFrom] at h
  | succ r ih =>
      intro i m h
      cases hs : env.sendErr i with
      | some es =>
          simp [exchangeFrom, send, hs] at h ⊢
          exact ⟨[Event.logPrint ("Node " ++ node ++ " sends " ++ mkMsg i node ++ "\n"),
            Event.sockSend (mkMsg i node)], by simp [h]⟩
      | none =>
          cases hr : env.recvResult i with
          | error er =>
              simp [exchangeFrom, send, receive, hs, hr] at h ⊢
              exact ⟨[Event.logPrint ("Node " ++ node ++ " sends " ++ mkMsg i node ++ "\n"),
                Event.sockSend (mkMsg i node), Event.sockRecv], by simp [h]⟩
          | ok s =>
              simp [exchangeFrom, send, receive, hs, hr] at h ⊢
              obtain ⟨t, ht⟩ := ih (i + 1) m h
              exact ⟨Event.logPrint ("Node " ++ node ++ " sends " ++ mkMsg i node ++ "\n")
                  :: Event.sockSend (mkMsg i node) :: Event.sockRecv
                  :: Event.logPrint ("Node " ++ node ++ " received " ++ s ++ "\n")
                  :: Event.sleep 1 :: t, by simp [ht]⟩

/-! Helper lemmas about `runNode`. -/

theorem runNode_close_mem_iff_aux (env : SocketEnv) (node url : String) :
    Event.sockClose ∈ (runNode env node url).1 ↔ (runNode env node url).2 = none := by
  cases hn : env.newSocketErr with
  | some e => simp [runNode, newSocket, hn]
  | none =>
      cases hl : env.listenErr with
      | none =>
          cases hloop : (exchangeFrom env node 0 3).2 with
          | some m =>
              simp [runNode, newSocket, hn, hl, hloop]
              exact exchangeFrom_no_close env node 3 0
          | none => simp [runNode, newSocket, hn, hl, hloop]
      | some e1 =>
          cases hd : env.dialErr with
          | none =>
              cases hloop : (exchangeFrom env node 0 3).2 with
              | some m =>
                  simp [runNode, newSocket, hn, hl, hd, hloop]
                  exact exchangeFrom_no_close env node 3 0
              | none => simp [runNode, newSocket, hn, hl, hd, hloop]
          | some e2 => simp [runNode, newSocket, hn, hl, hd]

theorem runNode_fatal_end_aux (env : SocketEnv) (node url : String) (m : String)
    (h : (runNode env node url).2 = some m) :
    ∃ t, (runNode env node url).1 = t ++ [Event.logFatal m] := by
  cases hn : env.newSocketErr with
  | some e =>
      simp [runNode, newSocket, hn] at h ⊢
      exact ⟨[Event.newPairSocket], by simp [h]⟩
  | none =>
      cases hl : env.listenErr with
      | none =>
          cases hloop : (exchangeFrom env node 0 3).2 with
          | some m2 =>
              simp [runNode, newSocket, hn, hl, hloop] at h ⊢
              obtain ⟨t, ht⟩ := exchangeFrom_fatal_end env node 3 0 m2 hloop
              subst h
              exact ⟨Event.newPairSocket :: Event.addTransport Transport.ipc
                  :: Event.addTransport Transport.tcp :: Event.setRecvDeadline 10
                  :: Event.listen url :: t, by simp [ht]⟩
          | none => simp [runNode, newSocket, hn, hl, hloop] at h
      | some e1 =>
          cases hd : env.dialErr with
          | none =>
              cases hloop : (exchangeFrom env node 0 3).2 with
              | some m2 =>
                  simp [runNode, newSocket, hn, hl, hd, hloop] at h ⊢
                  obtain ⟨t, ht⟩ := exchangeFrom_fatal_end env node 3 0 m2 hloop
                  subst h
                  exact ⟨Event.newPairSocket :: Event.addTransport Transport.ipc
                      :: Event.addTransport Transport.tcp :: Event.setRecvDeadline 10
                      :: Event.listen url
                      :: Event.logPrint ("Node " ++ node ++ " cannot listen on socket \x27"
                            ++ url ++ "\x27: " ++ e1 ++ "\nTrying to dial instead\n")
                      :: Event.dial url :: t, by simp [ht]⟩
              | none => simp [runNode, newSocket, hn, hl, hd, hloop] at h
          | some e2 =>
              simp [runNode, newSocket, hn, hl, hd] at h ⊢
              exact ⟨[Event.newPairSocket, Event.addTransport Transport.ipc,
                  Event.addTransport Transport.tcp, Event.setRecvDeadline 10,
                  Event.listen url,
                  Event.logPrint ("Node " ++ node ++ " cannot listen on socket \x27"
                    ++ url ++ "\x27: " ++ e1 ++ "\nTrying to dial instead\n"),
                  Event.dial url], by simp [h]⟩

theorem runNode_success_shape (env : SocketEnv) (node url : String)
    (h : (runNode env node url).2 = none) :
    ∃ pre, (runNode env node url).1
        = pre ++ (exchangeFrom env node 0 3).1
          ++ [Event.logPrint ("Node " ++ node ++ ": Done.\n"), Event.sockClose]
      ∧ pre.filter sendRecvP = [] ∧ pre.filter sendRecvSleepP = []
      ∧ (exchangeFrom env node 0 3).2 = none := by
  cases hn : env.newSocketErr with
  | some e => simp [runNode, newSocket, hn] at h
  | none =>
      cases hl : env.listenErr with
      | none =>
          cases hloop : (exchangeFrom env node 0 3).2 with
          | some m => simp [runNode, newSocket, hn, hl, hloop] at h
          | none =>
              refine ⟨[Event.newPairSocket, Event.addTransport Transport.ipc,
                Event.addTransport Transport.tcp, Event.setRecvDeadline 10,
                Event.listen url], ?_, rfl, rfl, rfl⟩
              simp [runNode, newSocket, hn, hl, hloop]
      | some e1 =>
          cases hd : env.dialErr with
          | none =>
              cases hloop : (exchangeFrom env node 0 3).2 with
              | some m => simp [runNode, newSocket, hn, hl, hd, hloop] at h
              | none =>
                  refine ⟨[Event.newPairSocket, Event.addTransport Transport.ipc,
                    Event.addTransport Transport.tcp, Event.setRecvDeadline 10,
                    Event.listen url,
                    Event.logPrint ("Node " ++ node ++ " cannot listen on socket \x27"
                      ++ url ++ "\x27: " ++ e1 ++ "\nTrying to dial instead\n"),
                    Event.dial url], ?_, rfl, rfl, rfl⟩
                  simp [runNode, newSocket, hn, hl, hd, hloop]
          | some e2 => simp [runNode, newSocket, hn, hl, hd] at h

theorem runNode_filter_connP (env : SocketEnv) (node url : String)
    (hn : env.newSocketErr = none) :
    (runNode env node url).1.filter connP
      = (if env.listenErr = none then [Event.listen url]
         else [Event.listen url, Event.dial url]) := by
  cases hl : env.listenErr with
  | none =>
      cases hloop : (exchangeFrom env node 0 3).2 with
      | some m =>
          simp [runNode, newSocket, hn, hl, hloop, List.filter_append, connP,
            exchangeFrom_filter_connP]
      | none =>
          simp [runNode, newSocket, hn, hl, hloop, List.filter_append, connP,
            exchangeFrom_filter_connP]
  | some e1 =>
      cases hd : env.dialErr with
      | none =>
          cases hloop : (exchangeFrom env node 0 3).2 with
          | some m =>
              simp [runNode, newSocket, hn, hl, hd, hloop, List.filter_append, connP,
                exchangeFrom_filter_connP]
          | none =>
              simp [runNode, newSocket, hn, hl, hd, hloop, List.filter_append, connP,
                exchangeFrom_filter_connP]
      | some e2 => simp [runNode, newSocket, hn, hl, hd, connP]

theorem runNode_alt_pre_aux (env : SocketEnv) (node url : String) :
    ∃ t, (runNode env node url).1.filter sendRecvP ++ t = altFrom node 0 3 := by
  cases hn : env.newSocketErr with
  | some e => exact ⟨altFrom node 0 3, by simp [runNode, newSocket, hn, sendRecvP]⟩
  | none =>
      have hfull : ∀ l : List Event, l.filter sendRecvP
          = (exchangeFrom env node 0 3).1.filter sendRecvP →
          (∃ t, l.filter sendRecvP ++ t = altFrom node 0 3) := by
        intro l hl
        obtain ⟨t, ht⟩ := exchangeFrom_alt_pre env node 3 0
        exact ⟨t, by rw [hl]; exact ht⟩
      cases hl : env.listenErr with
      | none =>
          cases hloop : (exchangeFrom env node 0 3).2 with
          | some m =>
              refine hfull _ ?_
              simp [runNode, newSocket, hn, hl, hloop, List.filter_append, sendRecvP]
          | none =>
              refine hfull _ ?_
              simp [runNode, newSocket, hn, hl, hloop, List.filter_append, sendRecvP]
      | some e1 =>
          cases hd : env.dialErr with
          | none =>
              cases hloop : (exchangeFrom env node 0 3).2 with
              | some m =>
                  refine hfull _ ?_
                  simp [runNode, newSocket, hn, hl, hd, hloop, List.filter_append, sendRecvP]
              | none =>
                  refine hfull _ ?_
                  simp [runNode, newSocket, hn, hl, hd, hloop, List.filter_append, sendRecvP]
          | some e2 =>
              exact ⟨altFrom node 0 3, by simp [runNode, newSocket, hn, hl, hd, sendRecvP]⟩

theorem runNode_done_iff (env : SocketEnv) (node url : String) :
    (∃ t, (runNode env node url).1
        = t ++ [Event.logPrint ("Node " ++ node ++ ": Done.\n"), Event.sockClose])
      ↔ (runNode env node url).2 = none := by
  constructor
  · rintro ⟨t, ht⟩
    rw [← runNode_close_mem_iff_aux]
    simp [ht]
  · intro h
    obtain ⟨pre, hpre, -, -, -⟩ := runNode_success_shape env node url h
    exact ⟨pre ++ (exchangeFrom env node 0 3).1, by simp [hpre]⟩

theorem exchangeFrom_ni (env1 env2 : SocketEnv) (node : String)
    (hs : ∀ k, env1.sendErr k = env2.sendErr k)
    (hr1 : ∀ k, ∃ s, env1.recvResult k = Except.ok s)
    (hr2 : ∀ k, ∃ s, env2.recvResult k = Except.ok s) :
    ∀ r i, (exchangeFrom env1 node i r).1.filterMap sentPayload
            = (exchangeFrom env2 node i r).1.filterMap sentPayload
         ∧ (exchangeFrom env1 node i r).2 = (exchangeFrom env2 node i r).2 := by
  intro r
  induction r with
  | zero => intro i; exact ⟨rfl, rfl⟩
  | succ r ih =>
      intro i
      obtain ⟨s1, h1⟩ := hr1 i
      obtain ⟨s2, h2⟩ := hr2 i
      have hsi := (hs i).symm
      cases he : env1.sendErr i with
      | some es =>
          rw [he] at hsi
          simp [exchangeFrom, send, receive, he, hsi, h1, h2, sentPayload]
      | none =>
          rw [he] at hsi
          obtain ⟨ihm, iho⟩ := ih (i + 1)
          simp [exchangeFrom, send, receive, he, hsi, h1, h2, sentPayload,
            List.filterMap_append, ihm, iho]

theorem runNode_ni_aux (env1 env2 : SocketEnv) (node url : String)
    (hn : env1.newSocketErr = env2.newSocketErr)
    (hl : env1.listenErr = env2.listenErr)
    (hd : env1.dialErr = env2.dialErr)
    (hs : ∀ k, env1.sendErr k = env2.sendErr k)
    (hr1 : ∀ k, ∃ s, env1.recvResult k = Except.ok s)
    (hr2 : ∀ k, ∃ s, env2.recvResult k = Except.ok s) :
    (runNode env1 node url).1.filterMap sentPayload
        = (runNode env2 node url).1.filterMap sentPayload
      ∧ (runNode env1 node url).2 = (runNode env2 node url).2 := by
  obtain ⟨em, eo⟩ := exchangeFrom_ni env1 env2 node hs hr1 hr2 3 0
  have hn2 := hn.symm
  have hl2 := hl.symm
  have hd2 := hd.symm
  cases h1 : env1.newSocketErr with
  | some e =>
      rw [h1] at hn2
      simp [runNode, newSocket, h1, hn2, sentPayload]
  | none =>
      rw [h1] at hn2
      cases h2 : env1.listenErr with
      | none =>
          rw [h2] at hl2
          cases hloop : (exchangeFrom env1 node 0 3).2 with
          | some m =>
              rw [hloop] at eo
              simp [runNode, newSocket, h1, hn2, h2, hl2, hloop, eo.symm,
                List.filterMap_append, sentPayload, em]
          | none =>
              rw [hloop] at eo
              simp [runNode, newSocket, h1, hn2, h2, hl2, hloop, eo.symm,
                List.filterMap_append, sentPayload, em]
      | some e1 =>
          rw [h2] at hl2
          cases h3 : env1.dialErr with
          | none =>
              rw [h3] at hd2
              cases hloop : (exchangeFrom env1 node 0 3).2 with
              | some m =>
                  rw [hloop] at eo
                  simp [runNode, newSocket, h1, hn2, h2, hl2, h3, hd2, hloop, eo.symm,
                    List.filterMap_append, sentPayload, em]
              | none =>
                  rw [hloop] at eo
                  simp [runNode, newSocket, h1, hn2, h2, hl2, h3, hd2, hloop, eo.symm,
                    List.filterMap_append, sentPayload, em]
          | some e2 =>
              rw [h3] at hd2
              simp [runNode, newSocket, h1, hn2, h2, hl2, h3, hd2,
                List.filterMap_append, sentPayload]

/-! Claim theorems. -/

/-- Claim C1, counterexample: on the receive-failure path the run exits fatally and
the trace contains no `sockClose` event — `log.Fatalf` terminates the process
without running the deferred `socket.Close()`, so the endpoint is NOT
released on every exit path, contrary to the claim. -/
theorem runNode_close_skipped_on_fatal :
    (runNode envRecvFail "0" "tcp://localhost:54545").2 ≠ none
      ∧ Event.sockClose ∉ (runNode envRecvFail "0" "tcp://localhost:54545").1 := by
  decide

/-- Claim C1, amended: the socket is closed exactly on normal completion — a
`sockClose` event occurs in the trace if and only if the run exits normally;
every fatal-error path terminates without closing the socket. -/
theorem runNode_close_iff_normal_exit (env : SocketEnv) (node url : String) :
    Event.sockClose ∈ (runNode env node url).1 ↔ (runNode env node url).2 = none :=
  runNode_close_mem_iff_aux env node url

/-- Claim C2: once the socket is created, the run performs exactly one Listen on the
given address; a Dial — exactly one, on the same address — happens if and only
if the Listen failed; and if both fail the run ends fatally with the
neither-listen-nor-dial diagnostic.  No other listen or dial attempt occurs on
any path. -/
theorem runNode_listen_then_dial (env : SocketEnv) (node url : String)
    (hn : env.newSocketErr = none) :
    (runNode env node url).1.filter connP
        = (if env.listenErr = none then [Event.listen url]
           else [Event.listen url, Event.dial url])
      ∧ (∀ e1 e2, env.listenErr = some e1 → env.dialErr = some e2 →
          (runNode env node url).2
            = some ("Node " ++ node ++ " can neither listen nor dial on socket \x27"
                ++ url ++ "\x27: " ++ e2 ++ "\n")) := by
  refine ⟨runNode_filter_connP env node url hn, ?_⟩
  intro e1 e2 h1 h2
  simp [runNode, newSocket, hn, h1, h2]

/-- Claim C2 witness: in an environment in which listen and dial both fail, the run
performs one listen then one dial and exits fatally with the diagnostic. -/
theorem runNode_listen_then_dial_witness :
    (runNode envConnFail "1" "tcp://localhost:54545").1.filter connP
        = (if envConnFail.listenErr = none then [Event.listen "tcp://localhost:54545"]
           else [Event.listen "tcp://localhost:54545", Event.dial "tcp://localhost:54545"])
      ∧ (runNode envConnFail "1" "tcp://localhost:54545").2
        = some ("Node " ++ "1" ++ " can neither listen nor dial on socket \x27"
            ++ "tcp://localhost:54545" ++ "\x27: " ++ "connection refused" ++ "\n") :=
  ⟨(runNode_listen_then_dial envConnFail "1" "tcp://localhost:54545" rfl).1,
   (runNode_listen_then_dial envConnFail "1" "tcp://localhost:54545" rfl).2
     "bind: address already in use" "connection refused" rfl rfl⟩

/-- Claim C3: every normally-completing run performs exactly three send-then-receive
round trips, the i-th sent payload is `message <i> from node <node>.`
(`mkMsg i node`), and the trace ends with the `Node <node>: Done.` log (then
the deferred close). -/
theorem runNode_success_three_round_trips (env : SocketEnv) (node url : String)
    (h : (runNode env node url).2 = none) :
    (runNode env node url).1.filter sendRecvP
        = [Event.sockSend (mkMsg 0 node), Event.sockRecv,
           Event.sockSend (mkMsg 1 node), Event.sockRecv,
           Event.sockSend (mkMsg 2 node), Event.sockRecv]
      ∧ (∃ t, (runNode env node url).1
          = t ++ [Event.logPrint ("Node " ++ node ++ ": Done.\n"), Event.sockClose]) := by
  obtain ⟨pre, hpre, hp1, hp2, hloop⟩ := runNode_success_shape env node url h
  constructor
  · rw [hpre]
    simp [List.filter_append, hp1, sendRecvP,
      exchangeFrom_success_filter env node 3 0 hloop]
    rfl
  · exact ⟨pre ++ (exchangeFrom env node 0 3).1, by simp [hpre]⟩

/-- Claim C3 witness: a fully successful run of node "0" sends exactly the three
expected messages and ends with the Done log and the close. -/
theorem runNode_success_three_round_trips_witness :
    (runNode envOk "0" "tcp://localhost:54545").1.filter sendRecvP
        = [Event.sockSend "message 0 from node 0.", Event.sockRecv,
           Event.sockSend "message 1 from node 0.", Event.sockRecv,
           Event.sockSend "message 2 from node 0.", Event.sockRecv]
      ∧ (∃ t, (runNode envOk "0" "tcp://localhost:54545").1
          = t ++ [Event.logPrint ("Node " ++ "0" ++ ": Done.\n"), Event.sockClose]) :=
  runNode_success_three_round_trips envOk "0" "tcp://localhost:54545" rfl

/-- Claim C4: the socket factory always produces a PAIR socket with the ipc and tcp
transports added and a receive deadline of 10 seconds; if socket creation
fails, the run is fatal immediately, with a diagnostic naming the node. -/
theorem newSocket_pair_transports_deadline (env : SocketEnv) (node url : String) :
    (env.newSocketErr = none →
        newSocket env node
          = ([Event.newPairSocket, Event.addTransport Transport.ipc,
              Event.addTransport Transport.tcp, Event.setRecvDeadline 10], none))
      ∧ (∀ e, env.newSocketErr = some e →
          newSocket env node
              = ([Event.newPairSocket,
                  Event.logFatal ("Node " ++ node ++ ": Cannot create socket: "
                    ++ e ++ "\n")],
                 some ("Node " ++ node ++ ": Cannot create socket: " ++ e ++ "\n"))
            ∧ (runNode env node url).2
              = some ("Node " ++ node ++ ": Cannot create socket: " ++ e ++ "\n")) := by
  constructor
  · intro h; simp [newSocket, h]
  · intro e h
    exact ⟨by simp [newSocket, h], by simp [runNode, newSocket, h]⟩

/-- Claim C4 witness: with creation succeeding the factory emits exactly the PAIR
socket, two transports and the 10-second deadline; with creation failing the
run is fatal with the role-naming diagnostic. -/
theorem newSocket_pair_transports_deadline_witness :
    (newSocket envOk "0"
        = ([Event.newPairSocket, Event.addTransport Transport.ipc,
            Event.addTransport Transport.tcp, Event.setRecvDeadline 10], none))
      ∧ (runNode envNewFail "0" "tcp://localhost:54545").2
        = some ("Node " ++ "0" ++ ": Cannot create socket: "
            ++ "out of file descriptors" ++ "\n") :=
  ⟨(newSocket_pair_transports_deadline envOk "0" "tcp://localhost:54545").1 rfl,
   ((newSocket_pair_transports_deadline envNewFail "0" "tcp://localhost:54545").2
     "out of file descriptors" rfl).2⟩

/-- Claim C5: on every run — successful or not — the send/receive events of the
trace form a prefix of the strict alternation send 0, receive, send 1,
receive, send 2, receive; in particular the receive of iteration i never
precedes the send of iteration i. -/
theorem runNode_send_precedes_receive (env : SocketEnv) (node url : String) :
    ∃ t, (runNode env node url).1.filter sendRecvP ++ t
        = [Event.sockSend (mkMsg 0 node), Event.sockRecv,
           Event.sockSend (mkMsg 1 node), Event.sockRecv,
           Event.sockSend (mkMsg 2 node), Event.sockRecv] := by
  obtain ⟨t, ht⟩ := runNode_alt_pre_aux env node url
  exact ⟨t, by rw [ht]; rfl⟩

/-- Claim C6: a failing k-th receive (e.g. the 10-second deadline expiring)
performs a single Recv call and exits fatally with the receive-failure
diagnostic naming the node; and every fatal run's trace ends at its fatal
diagnostic — nothing (in particular no retried receive) happens after it. -/
theorem receive_failure_is_fatal (env : SocketEnv) (node url : String) (k : Nat) (e : String)
    (hk : env.recvResult k = Except.error e) :
    receive env node k
        = ([Event.sockRecv,
            Event.logFatal ("Node " ++ node ++ " failed receiving a message: "
              ++ e ++ "\n")],
           Except.error ("Node " ++ node ++ " failed receiving a message: " ++ e ++ "\n"))
      ∧ (∀ m, (runNode env node url).2 = some m →
          ∃ t, (runNode env node url).1 = t ++ [Event.logFatal m]) :=
  ⟨by simp [receive, hk], fun m hm => runNode_fatal_end_aux env node url m hm⟩

/-- Claim C6 witness: with every receive timing out, the first receive produces one
Recv and the fatal diagnostic, and the run's trace ends at that diagnostic. -/
theorem receive_failure_is_fatal_witness :
    receive envRecvFail "0" 0
        = ([Event.sockRecv,
            Event.logFatal ("Node " ++ "0" ++ " failed receiving a message: "
              ++ "recv deadline exceeded" ++ "\n")],
           Except.error ("Node " ++ "0" ++ " failed receiving a message: "
              ++ "recv deadline exceeded" ++ "\n"))
      ∧ (∃ t, (runNode envRecvFail "0" "tcp://localhost:54545").1
          = t ++ [Event.logFatal ("Node 0 failed receiving a message: recv deadline exceeded\n")]) :=
  ⟨(receive_failure_is_fatal envRecvFail "0" "tcp://localhost:54545" 0
      "recv deadline exceeded" rfl).1,
   (receive_failure_is_fatal envRecvFail "0" "tcp://localhost:54545" 0
      "recv deadline exceeded" rfl).2
     "Node 0 failed receiving a message: recv deadline exceeded\n" (by decide)⟩

/-- Claim C7: a failing k-th send logs the payload, attempts the send, and exits
fatally with a diagnostic containing both the node and the failed payload;
inside the exchange loop the fatal message names the iteration-k payload; and
every fatal run's trace ends at its fatal diagnostic. -/
theorem send_failure_is_fatal (env : SocketEnv) (node message url : String) (k : Nat)
    (e : String) (hk : env.sendErr k = some e) :
    send env node message k
        = ([Event.logPrint ("Node " ++ node ++ " sends " ++ message ++ "\n"),
            Event.sockSend message,
            Event.logFatal ("Node " ++ node ++ " failed to send \x27" ++ message
              ++ "\x27: " ++ e ++ "\n")],
           some ("Node " ++ node ++ " failed to send \x27" ++ message
              ++ "\x27: " ++ e ++ "\n"))
      ∧ (∀ r, (exchangeFrom env node k (r + 1)).2
          = some ("Node " ++ node ++ " failed to send \x27" ++ mkMsg k node
              ++ "\x27: " ++ e ++ "\n"))
      ∧ (∀ m, (runNode env node url).2 = some m →
          ∃ t, (runNode env node url).1 = t ++ [Event.logFatal m]) := by
  refine ⟨by simp [send, hk], ?_, fun m hm => runNode_fatal_end_aux env node url m hm⟩
  intro r
  simp [exchangeFrom, send, hk]

/-- Claim C7 witness: with every send failing, the first send attempt exits fatally
with a diagnostic naming node "0" and the payload, and the loop's outcome is
that fatal message. -/
theorem send_failure_is_fatal_witness :
    send envSendFail "0" "message 0 from node 0." 0
        = ([Event.logPrint ("Node " ++ "0" ++ " sends " ++ "message 0 from node 0."
              ++ "\n"),
            Event.sockSend "message 0 from node 0.",
            Event.logFatal ("Node " ++ "0" ++ " failed to send \x27"
              ++ "message 0 from node 0." ++ "\x27: " ++ "connection reset" ++ "\n")],
           some ("Node " ++ "0" ++ " failed to send \x27" ++ "message 0 from node 0."
              ++ "\x27: " ++ "connection reset" ++ "\n"))
      ∧ (exchangeFrom envSendFail "0" 0 (2 + 1)).2
        = some ("Node " ++ "0" ++ " failed to send \x27" ++ mkMsg 0 "0"
            ++ "\x27: " ++ "connection reset" ++ "\n") :=
  ⟨(send_failure_is_fatal envSendFail "0" "message 0 from node 0."
      "tcp://localhost:54545" 0 "connection reset" rfl).1,
   ((send_failure_is_fatal envSendFail "0" "message 0 from node 0."
      "tcp://localhost:54545" 0 "connection reset" rfl).2).1 2⟩

/-- Claim C8: invoked with fewer than two positional arguments (at most two entries
in `os.Args`), the program prints exactly one usage line and performs no
other event — no socket is created, nothing is sent or received — and exits
normally; with both arguments present, the first is the node and the node
runner is invoked with the second as the address. -/
theorem main_usage_or_run (env : SocketEnv) (prog a node url : String)
    (rest : List String) :
    mainGo env [prog] = ([Event.logPrint ("Usage: " ++ prog ++ " 0|1 <url>\n")], none)
      ∧ mainGo env [prog, a] = ([Event.logPrint ("Usage: " ++ prog ++ " 0|1 <url>\n")], none)
      ∧ mainGo env (prog :: node :: url :: rest) = runNode env node url := by
  refine ⟨by simp [mainGo], by simp [mainGo], ?_⟩
  simp [mainGo]

/-- Claim C9: every normally-completing run's send/receive/sleep events are exactly
the three iterations of send, receive, then a single one-second sleep — the
only delay the loop inserts. -/
theorem runNode_pacing_sleep (env : SocketEnv) (node url : String)
    (h : (runNode env node url).2 = none) :
    (runNode env node url).1.filter sendRecvSleepP
      = [Event.sockSend (mkMsg 0 node), Event.sockRecv, Event.sleep 1,
         Event.sockSend (mkMsg 1 node), Event.sockRecv, Event.sleep 1,
         Event.sockSend (mkMsg 2 node), Event.sockRecv, Event.sleep 1] := by
  obtain ⟨pre, hpre, hp1, hp2, hloop⟩ := runNode_success_shape env node url h
  rw [hpre]
  simp [List.filter_append, hp2, sendRecvSleepP,
    exchangeFrom_success_filter_sleep env node 3 0 hloop]
  rfl

/-- Claim C9 witness: the fully successful run of node "0" exhibits exactly the
send/receive/sleep-1 pattern three times. -/
theorem runNode_pacing_sleep_witness :
    (runNode envOk "0" "tcp://localhost:54545").1.filter sendRecvSleepP
      = [Event.sockSend (mkMsg 0 "0"), Event.sockRecv, Event.sleep 1,
         Event.sockSend (mkMsg 1 "0"), Event.sockRecv, Event.sleep 1,
         Event.sockSend (mkMsg 2 "0"), Event.sockRecv, Event.sleep 1] :=
  runNode_pacing_sleep envOk "0" "tcp://localhost:54545" rfl

/-- Claim C10: two runs with the same node and address whose environments agree on
everything except the contents of the (always successful) received replies
send exactly the same payload sequence, have the same outcome, and one ends
with the completion log if and only if the other does — received content
never influences the sends or the completion log. -/
theorem runNode_sends_ignore_received_content (env1 env2 : SocketEnv) (node url : String)
    (hn : env1.newSocketErr = env2.newSocketErr)
    (hl : env1.listenErr = env2.listenErr)
    (hd : env1.dialErr = env2.dialErr)
    (hs : ∀ k, env1.sendErr k = env2.sendErr k)
    (hr1 : ∀ k, ∃ s, env1.recvResult k = Except.ok s)
    (hr2 : ∀ k, ∃ s, env2.recvResult k = Except.ok s) :
    (runNode env1 node url).1.filterMap sentPayload
        = (runNode env2 node url).1.filterMap sentPayload
      ∧ (runNode env1 node url).2 = (runNode env2 node url).2
      ∧ ((∃ t, (runNode env1 node url).1
            = t ++ [Event.logPrint ("Node " ++ node ++ ": Done.\n"), Event.sockClose])
          ↔ (∃ t, (runNode env2 node url).1
            = t ++ [Event.logPrint ("Node " ++ node ++ ": Done.\n"), Event.sockClose])) := by
  obtain ⟨hm, ho⟩ := runNode_ni_aux env1 env2 node url hn hl hd hs hr1 hr2
  refine ⟨hm, ho, ?_⟩
  rw [runNode_done_iff, runNode_done_iff, ho]

/-- Claim C10 witness: the runs under `envOk` and `envOkAlt` (identical except for
the received payload contents) send the same payloads, share the same
outcome, and both reach the completion log. -/
theorem runNode_sends_ignore_received_content_witness :
    (runNode envOk "0" "tcp://localhost:54545").1.filterMap sentPayload
        = (runNode envOkAlt "0" "tcp://localhost:54545").1.filterMap sentPayload
      ∧ (runNode envOk "0" "tcp://localhost:54545").2
        = (runNode envOkAlt "0" "tcp://localhost:54545").2
      ∧ ((∃ t, (runNode envOk "0" "tcp://localhost:54545").1
            = t ++ [Event.logPrint ("Node " ++ "0" ++ ": Done.\n"), Event.sockClose])
          ↔ (∃ t, (runNode envOkAlt "0" "tcp://localhost:54545").1
            = t ++ [Event.logPrint ("Node " ++ "0" ++ ": Done.\n"), Event.sockClose])) :=
  runNode_sends_ignore_received_content envOk envOkAlt "0" "tcp://localhost:54545"
    rfl rfl rfl (fun _ => rfl)
    (fun k => ⟨mkMsg k "1", rfl⟩)
    (fun k => ⟨"totally different reply " ++ toString k, rfl⟩)

end Messaging
